import Mathlib

/-!
Verification of the fund-data aggregation server.

Shallow embedding of `src/scripts/fund_server.py` and
`src/scripts/fund_api.py`.  Upstream numeric values (parsed via Python
`float(...)`) are modelled as rationals; in the source no arithmetic beyond
comparison and copying is performed on them, so the embedding is faithful for
the properties proved here.  Wall-clock readings (`time.time()`,
`datetime.now()`) are passed in explicitly: a timestamp `now : ℚ` for the
cache and a preformatted string for the record field `updateTime`.  Each
adapter fetcher catches every exception internally and returns `None` on
failure, so an adapter outcome is `Option` of the record the fetcher builds.
-/

namespace FundServer

/-- The dict built by `fetch_tiantian_estimate` (fund_server.py lines 63-70).
Every key is always present: missing upstream fields are coerced to `0.0`
or `''` by the fetcher itself. -/
structure TiantianRecord where
  code : String
  name : String
  dwjz : ℚ
  gsz : ℚ
  gszzl : ℚ
  gztime : String
  deriving DecidableEq, Repr

/-- The dict built by `fetch_eastmoney_nav` (fund_server.py lines 93-98). -/
structure NavRecord where
  dwjz : ℚ
  ljjz : ℚ
  jzzzl : ℚ
  fsrq : String
  deriving DecidableEq, Repr

/-- The dict built by `fetch_eastmoney_detail` (fund_server.py lines 120-129). -/
structure DetailRecord where
  code : String
  name : String
  type : String
  dwjz : ℚ
  gsz : ℚ
  gszzl : ℚ
  gztime : String
  pdate : String
  deriving DecidableEq, Repr

/-- The merged result dict of `get_fund_data` (fund_server.py lines 156-178).
The `sources` sub-dict is flattened into the three `src*` booleans. -/
structure FundData where
  code : String
  name : String
  type : String
  nav : ℚ
  navDate : String
  navChange : ℚ
  estimate : ℚ
  estimateTime : String
  estimateChange : ℚ
  currentValue : ℚ
  dayChange : ℚ
  srcEstimate : Bool
  srcNav : Bool
  srcDetail : Bool
  updateTime : String
  deriving DecidableEq, Repr

/-- The merge step of `get_fund_data` (fund_server.py lines 155-206): build the
base dict, fill from `detail`, then `estimate` (which overwrites the estimate
fields and fills `name` only if still empty, Python `result['name'] or ...`),
then `nav`, then select the recommended value: published nav wins when `> 0`,
else the estimate when `> 0`, else the zero sentinels stand. -/
def mergeFund (code : String) (estimate : Option TiantianRecord)
    (nav : Option NavRecord) (detail : Option DetailRecord)
    (updateTime : String) : FundData :=
  let base : FundData :=
    { code := code, name := "", type := ""
      nav := 0, navDate := "", navChange := 0
      estimate := 0, estimateTime := "", estimateChange := 0
      currentValue := 0, dayChange := 0
      srcEstimate := estimate.isSome, srcNav := nav.isSome
      srcDetail := detail.isSome, updateTime := updateTime }
  let r1 : FundData :=
    match detail with
    | some d =>
        { base with name := d.name, type := d.type, estimate := d.gsz
                    estimateTime := d.gztime, estimateChange := d.gszzl }
    | none => base
  let r2 : FundData :=
    match estimate with
    | some e =>
        { r1 with name := if r1.name = "" then e.name else r1.name
                  estimate := e.gsz, estimateTime := e.gztime
                  estimateChange := e.gszzl }
    | none => r1
  let r3 : FundData :=
    match nav with
    | some n =>
        { r2 with nav := n.dwjz, navDate := n.fsrq, navChange := n.jzzzl }
    | none => r2
  if 0 < r3.nav then
    { r3 with currentValue := r3.nav, dayChange := r3.navChange }
  else if 0 < r3.estimate then
    { r3 with currentValue := r3.estimate, dayChange := r3.estimateChange }
  else r3

/-- The estimate-field selection implemented by lines 180-192 of the merge:
the estimate fields of the first adapter, in the order tiantian-estimate then
eastmoney-detail, that returned a record; the zero/empty sentinels when
neither did.  Every record a fetcher returns carries a (possibly `0`)
estimated value, missing upstream fields having been coerced by the fetcher
itself. -/
def estFields (estimate : Option TiantianRecord)
    (detail : Option DetailRecord) : ℚ × String × ℚ :=
  match estimate with
  | some e => (e.gsz, e.gztime, e.gszzl)
  | none =>
      match detail with
      | some d => (d.gsz, d.gztime, d.gszzl)
      | none => (0, "", 0)

/-- The published-value fields selection of lines 194-197: the nav adapter's
fields when it returned a record, the zero/empty sentinels otherwise. -/
def navFields (nav : Option NavRecord) : ℚ × String × ℚ :=
  match nav with
  | some n => (n.dwjz, n.fsrq, n.jzzzl)
  | none => (0, "", 0)

/-- The all-sentinel record `get_fund_data` builds when every adapter
returned `None`: only `code`, the all-false `sources` map and `updateTime`
are filled. -/
def emptyFund (code : String) (updateTime : String) : FundData :=
  { code := code, name := "", type := ""
    nav := 0, navDate := "", navChange := 0
    estimate := 0, estimateTime := "", estimateChange := 0
    currentValue := 0, dayChange := 0
    srcEstimate := false, srcNav := false, srcDetail := false
    updateTime := updateTime }

/-- A value of the module-level `cache` dict (fund_server.py lines 31, 46-52):
the stored merged record together with the `time.time()` reading taken when it
was stored. -/
structure CacheItem where
  data : FundData
  timestamp : ℚ
  deriving DecidableEq, Repr

/-- The module-level `cache` dict, as a map from cache key to entry. -/
abbrev Cache : Type := String → Option CacheItem

/-- The initial empty `cache` dict. -/
def emptyCache : Cache := fun _ => none

/-- `CACHE_TTL = 30` (fund_server.py line 33). -/
def CACHE_TTL : ℚ := 30

/-- `get_cached` (fund_server.py lines 36-43): return the stored data iff the
key is present and `now - timestamp < CACHE_TTL`. -/
def getCached (c : Cache) (key : String) (now : ℚ) : Option FundData :=
  match c key with
  | some item =>
      if now - item.timestamp < CACHE_TTL then some item.data else none
  | none => none

/-- `set_cache` (fund_server.py lines 46-52): store the data under the key
with the current time, replacing any prior entry. -/
def setCache (c : Cache) (key : String) (data : FundData) (now : ℚ) : Cache :=
  fun k => if k = key then some ⟨data, now⟩ else c k

/-- The cache key `f'fund_{code}'` of fund_server.py line 140. -/
def cacheKey (code : String) : String := "fund_" ++ code

/-- `get_fund_data` (fund_server.py lines 135-208).  The three adapter
outcomes are passed in as the values the three fetchers would return (each
fetcher catches its own exceptions and yields `None`); the returned `Bool`
records whether the fetch-and-merge pipeline ran (`false` on a cache hit).
Both `time.time()` readings of the call are modelled by the single `now`. -/
def getFundData (c : Cache) (code : String) (now : ℚ)
    (estimate : Option TiantianRecord) (nav : Option NavRecord)
    (detail : Option DetailRecord) (updateTime : String) :
    FundData × Cache × Bool :=
  match getCached c (cacheKey code) now with
  | some data => (data, c, false)
  | none =>
      let result := mergeFund code estimate nav detail updateTime
      (result, setCache c (cacheKey code) result now, true)

deriving instance DecidableEq for Except

/-- Where one caller of `get_fund_data` stands: before its `get_cached`
check; between a missed check and its `set_cache` (inside the
fetch-and-merge window, lines 144-207); or returned with its record. -/
inductive Phase where
  | start
  | fetching
  | done (r : FundData)
  deriving DecidableEq, Repr

/-- The shared state of two concurrent `get_fund_data` callers for the same
code: the shared `cache` dict, each caller's phase, and how many
fetch-and-merge pipelines have executed so far. -/
structure TwoCallers where
  cache : Cache
  p0 : Phase
  p1 : Phase
  fetchCount : Nat

/-- One atomic step of a single `get_fund_data` caller.  At `start` the
caller performs the `get_cached` check (lines 140-143), finishing with the
cached record on a hit and entering the fetch window on a miss; at
`fetching` it performs the fetch-and-merge and the `set_cache`
(lines 145-208), bumping the fetch counter.  `cache_lock` only makes each of
these two steps atomic; nothing marks a key as in-flight between them. -/
def callerStep (code : String) (now : ℚ) (estimate : Option TiantianRecord)
    (nav : Option NavRecord) (detail : Option DetailRecord)
    (updateTime : String) (cache : Cache) (fc : Nat) (p : Phase) :
    Cache × Nat × Phase :=
  match p with
  | .start =>
      match getCached cache (cacheKey code) now with
      | some v => (cache, fc, .done v)
      | none => (cache, fc, .fetching)
  | .fetching =>
      let r := mergeFund code estimate nav detail updateTime
      (setCache cache (cacheKey code) r now, fc + 1, .done r)
  | .done r => (cache, fc, .done r)

/-- Run an interleaving of the two callers: a `false` entry of the schedule
steps caller 0, a `true` entry steps caller 1. -/
def runSched (code : String) (now : ℚ) (estimate : Option TiantianRecord)
    (nav : Option NavRecord) (detail : Option DetailRecord)
    (updateTime : String) : List Bool → TwoCallers → TwoCallers
  | [], s => s
  | i :: rest, s =>
      let s' : TwoCallers :=
        if i then
          let (c, fc, p) :=
            callerStep code now estimate nav detail updateTime
              s.cache s.fetchCount s.p1
          { s with cache := c, fetchCount := fc, p1 := p }
        else
          let (c, fc, p) :=
            callerStep code now estimate nav detail updateTime
              s.cache s.fetchCount s.p0
          { s with cache := c, fetchCount := fc, p0 := p }
      runSched code now estimate nav detail updateTime rest s'

/-- The initial state of two concurrent callers over an empty cache. -/
def initTwo : TwoCallers :=
  { cache := emptyCache, p0 := .start, p1 := .start, fetchCount := 0 }

/-- Outcome of the `/api/funds` handler: a validation-error response or the
per-code results dict (modelled as an association list; an entry is the
resolved record or, when resolving that code raised, the
`{'error': str(e)}` dict, modelled as `Except.error`). -/
inductive BatchOut where
  | err (msg : String)
  | ok (entries : List (String × Except String FundData))
  deriving DecidableEq, Repr

/-- The entries of a successful batch response, `[]` on a validation error. -/
def BatchOut.entriesD : BatchOut → List (String × Except String FundData)
  | .err _ => []
  | .ok es => es

/-- Python `str.strip()`: drop leading and trailing whitespace
(`Char.isWhitespace` covers the ASCII whitespace arising here). -/
def pyStrip (s : String) : String :=
  ⟨((s.data.dropWhile Char.isWhitespace).reverse.dropWhile
      Char.isWhitespace).reverse⟩

/-- Helper for `pySplitComma`: split a character list at every comma,
`acc` holding the current piece reversed. -/
def splitCommaAux : List Char → List Char → List (List Char)
  | [], acc => [acc.reverse]
  | c :: cs, acc =>
      if c = ',' then acc.reverse :: splitCommaAux cs []
      else splitCommaAux cs (c :: acc)

/-- Python `str.split(',')`: the pieces between commas, in order; the empty
string yields `[""]`, exactly as in Python. -/
def pySplitComma (s : String) : List String :=
  (splitCommaAux s.data []).map fun cs => ⟨cs⟩

/-- fund_server.py lines 226-227: split the `codes` query parameter on
commas, strip each piece, and keep only the non-blank ones. -/
def parseCodes (raw : String) : List String :=
  ((pySplitComma raw).map pyStrip).filter (fun c => c ≠ "")

/-- The validation-error message for an empty code list (line 232). -/
def emptyListMsg : String := "请提供基金代码列表"

/-- The validation-error message for more than 50 codes (line 238). -/
def capMsg : String := "一次最多查询50只基金"

/-- `get_funds` (fund_server.py lines 224-254): parse, validate (empty list
first, then the 50-code cap), then resolve every code.  `resolve` is the
behaviour of `get_fund_data` (or its raised exception) for each code; the
returned `Nat` counts how many `get_fund_data` dispatches were issued. -/
def getFunds (raw : String) (resolve : String → Except String FundData) :
    BatchOut × Nat :=
  let codes := parseCodes raw
  if codes = [] then (.err emptyListMsg, 0)
  else if 50 < codes.length then (.err capMsg, 0)
  else (.ok (codes.map fun c => (c, resolve c)), codes.length)

end FundServer

namespace FundAPI

/-- The dict built by `FundAPI.fetch_tiantian_estimate`
(fund_api.py lines 59-67). -/
structure TtApiRecord where
  code : String
  name : String
  dwjz : ℚ
  gsz : ℚ
  gszzl : ℚ
  gztime : String
  source : String
  deriving DecidableEq, Repr

/-- The dict built by `FundAPI.fetch_eastmoney_nav` (fund_api.py
lines 94-102). -/
structure NavApiRecord where
  code : String
  name : String
  dwjz : ℚ
  ljjz : ℚ
  jzzzl : ℚ
  fsrq : String
  source : String
  deriving DecidableEq, Repr

/-- The dict built by `FundAPI.fetch_eastmoney_detail` (fund_api.py
lines 128-138). -/
structure DetApiRecord where
  code : String
  name : String
  type : String
  dwjz : ℚ
  gsz : ℚ
  gszzl : ℚ
  gztime : String
  jzrq : String
  source : String
  deriving DecidableEq, Repr

/-- The dict built by `FundAPI.fetch_ant_fund` (fund_api.py lines 159-167). -/
structure AntApiRecord where
  code : String
  name : String
  dwjz : ℚ
  gsz : ℚ
  gszzl : ℚ
  gztime : String
  source : String
  deriving DecidableEq, Repr

/-- The results dict of `FundAPI.fetch_fund_data` (fund_api.py lines
173-196): exactly one slot per adapter, keyed by the source tag of the
`futures` dict; slots hold the adapter's `Optional` return.  The iteration
order of `as_completed` only affects insertion order, not dict content, so
the structure is a faithful model of the returned dict. -/
structure FetchAllResult where
  tiantian : Option TtApiRecord
  eastmoney_nav : Option NavApiRecord
  eastmoney_detail : Option DetApiRecord
  ant : Option AntApiRecord
  deriving DecidableEq, Repr

/-- `future.result()` for one adapter either returns the fetcher's value or
re-raises; the loop body (lines 188-194) stores the value on success and
`None` on an exception. -/
def outcomeOf {α : Type} : Except String (Option α) → Option α
  | .ok v => v
  | .error _ => none

/-- `FundAPI.fetch_fund_data` (fund_api.py lines 173-196): run the four
adapters, collect one outcome per adapter, mapping an adapter that raised to
`None` via the per-future `try`/`except`. -/
def fetchFundData (rt : Except String (Option TtApiRecord))
    (rn : Except String (Option NavApiRecord))
    (rd : Except String (Option DetApiRecord))
    (ra : Except String (Option AntApiRecord)) : FetchAllResult :=
  { tiantian :=
      match rt with
      | .ok v => v
      | .error _ => none
    eastmoney_nav :=
      match rn with
      | .ok v => v
      | .error _ => none
    eastmoney_detail :=
      match rd with
      | .ok v => v
      | .error _ => none
    ant :=
      match ra with
      | .ok v => v
      | .error _ => none }

end FundAPI

example :
    (FundServer.mergeFund "000216" none
      (some { dwjz := 0, ljjz := 0, jzzzl := 0, fsrq := "" })
      (some { code := "000216", name := "f", type := "", dwjz := 1,
              gsz := Rat.mk' 5 2, gszzl := 1, gztime := "", pdate := "" })
      "now").currentValue = Rat.mk' 5 2 := by decide

example :
    (FundServer.mergeFund "000216"
      (some { code := "000216", name := "", dwjz := 0, gsz := 2,
              gszzl := 0, gztime := "" })
      (some { dwjz := Rat.mk' 2469 2000, ljjz := 0, jzzzl := 1,
              fsrq := "d" })
      none "now").currentValue = Rat.mk' 2469 2000 := by decide

/-- C1: for every combination of adapter results, the merged record's
recommended value is selected as follows: if the published value is positive
it and the published change are used, regardless of the estimate; otherwise,
if the selected estimated value is positive, it and the estimated change are
used; otherwise both stay at the zero sentinel.  A value `<= 0` counts as
absent. -/
theorem mergeFund_value_selection (code : String)
    (estimate : Option FundServer.TiantianRecord)
    (nav : Option FundServer.NavRecord)
    (detail : Option FundServer.DetailRecord) (t : String) :
    (0 < (FundServer.navFields nav).1 →
      (FundServer.mergeFund code estimate nav detail t).currentValue =
          (FundServer.navFields nav).1 ∧
      (FundServer.mergeFund code estimate nav detail t).dayChange =
          (FundServer.navFields nav).2.2)
    ∧ ((FundServer.navFields nav).1 ≤ 0 →
        0 < (FundServer.estFields estimate detail).1 →
      (FundServer.mergeFund code estimate nav detail t).currentValue =
          (FundServer.estFields estimate detail).1 ∧
      (FundServer.mergeFund code estimate nav detail t).dayChange =
          (FundServer.estFields estimate detail).2.2)
    ∧ ((FundServer.navFields nav).1 ≤ 0 →
        (FundServer.estFields estimate detail).1 ≤ 0 →
      (FundServer.mergeFund code estimate nav detail t).currentValue = 0 ∧
      (FundServer.mergeFund code estimate nav detail t).dayChange = 0) := by
  cases estimate <;> cases nav <;> cases detail <;>
    refine ⟨fun h1 => ?_, fun h1 h2 => ?_, fun h1 h2 => ?_⟩ <;>
    simp_all [FundServer.mergeFund, FundServer.navFields,
      FundServer.estFields] <;>
    split_ifs <;> simp_all <;> linarith

/-- C1 witness, the spec's scenario: the authoritative adapter reports a
published value of `0` (treated as absent) and the estimate adapter reports
`2.5`, so the merged recommended value is the estimate `2.5`. -/
theorem mergeFund_value_selection_witness :
    (FundServer.mergeFund "000216"
      (some { code := "000216", name := "", dwjz := 0, gsz := Rat.mk' 5 2,
              gszzl := 1, gztime := "" })
      (some { dwjz := 0, ljjz := 0, jzzzl := 0, fsrq := "" })
      none "2024-01-01 10:00:00").currentValue = Rat.mk' 5 2 := by
  have h := (mergeFund_value_selection "000216"
      (some { code := "000216", name := "", dwjz := 0, gsz := Rat.mk' 5 2,
              gszzl := 1, gztime := "" })
      (some { dwjz := 0, ljjz := 0, jzzzl := 0, fsrq := "" })
      none "2024-01-01 10:00:00").2.1 (by decide) (by decide)
  exact h.1.trans (by decide)

/-- C2 counterexample: two concurrent `get_fund_data` callers for the same
uncached key, interleaved check-check-fetch-fetch, each execute their own
fetch-and-merge pipeline — two fetches, not one — because no in-flight
marker exists between the `get_cached` miss and the `set_cache`. -/
theorem singleFlight_counterexample :
    (FundServer.runSched "a" 0 none none none "t"
        [false, true, false, true] FundServer.initTwo).fetchCount = 2
    ∧ (FundServer.runSched "a" 0 none none none "t"
        [false, true, false, true] FundServer.initTwo).p0 =
        FundServer.Phase.done (FundServer.mergeFund "a" none none none "t")
    ∧ (FundServer.runSched "a" 0 none none none "t"
        [false, true, false, true] FundServer.initTwo).p1 =
        FundServer.Phase.done (FundServer.mergeFund "a" none none none "t") := by
  refine ⟨?_, ?_, ?_⟩ <;> decide

/-- C2 amended: concurrent `get_fund_data` calls for the same uncached key
are not coalesced — every caller whose `get_cached` check runs before any
caller's `set_cache` performs its own fetch-and-merge (two callers can
trigger two fetches); only a caller whose check runs after another caller's
store receives that stored record without fetching. -/
theorem getFundData_not_coalesced (estimate : Option FundServer.TiantianRecord)
    (nav : Option FundServer.NavRecord)
    (detail : Option FundServer.DetailRecord) (t : String) :
    (FundServer.runSched "a" 0 estimate nav detail t
        [false, true, false, true] FundServer.initTwo).fetchCount = 2
    ∧ (FundServer.runSched "a" 0 estimate nav detail t
        [false, false, true, true] FundServer.initTwo).fetchCount = 1
    ∧ (FundServer.runSched "a" 0 estimate nav detail t
        [false, false, true, true] FundServer.initTwo).p0 =
        FundServer.Phase.done (FundServer.mergeFund "a" estimate nav detail t)
    ∧ (FundServer.runSched "a" 0 estimate nav detail t
        [false, false, true, true] FundServer.initTwo).p1 =
        FundServer.Phase.done
          (FundServer.mergeFund "a" estimate nav detail t) := by
  refine ⟨?_, ?_, ?_, ?_⟩ <;>
    simp [FundServer.runSched, FundServer.callerStep, FundServer.getCached,
      FundServer.setCache, FundServer.emptyCache, FundServer.initTwo,
      FundServer.CACHE_TTL]

/-- When every adapter returns `None`, the merge yields exactly the
all-sentinel record. -/
theorem mergeFund_all_none (code t : String) :
    FundServer.mergeFund code none none none t =
      FundServer.emptyFund code t := by
  simp [FundServer.mergeFund, FundServer.emptyFund]

/-- C3: if every adapter fails, `get_fund_data` still returns (it is a total
function of the adapter outcomes) a record whose `sources` availability
entries are all `false` and whose name/value fields are the zero/empty
sentinels, and that record is stored in the cache with the call's
timestamp. -/
theorem getFundData_total_outage (c : FundServer.Cache) (code : String)
    (now : ℚ) (t : String)
    (h : FundServer.getCached c (FundServer.cacheKey code) now = none) :
    FundServer.getFundData c code now none none none t =
      (FundServer.emptyFund code t,
       FundServer.setCache c (FundServer.cacheKey code)
         (FundServer.emptyFund code t) now,
       true) := by
  simp [FundServer.getFundData, h, mergeFund_all_none]

/-- C3 witness: over the empty cache, a call with all three adapters failed
returns the all-sentinel record with every source flag `false`, and the new
cache holds that record under the call's key with the call's timestamp. -/
theorem getFundData_total_outage_witness :
    (FundServer.getFundData FundServer.emptyCache "000216" 0
        none none none "t").1 = FundServer.emptyFund "000216" "t"
    ∧ (FundServer.getFundData FundServer.emptyCache "000216" 0
        none none none "t").2.2 = true
    ∧ (FundServer.getFundData FundServer.emptyCache "000216" 0
        none none none "t").2.1 (FundServer.cacheKey "000216") =
        some ⟨FundServer.emptyFund "000216" "t", 0⟩ := by
  have h := getFundData_total_outage FundServer.emptyCache "000216" 0 "t"
    (by decide)
  refine ⟨?_, ?_, ?_⟩
  · exact congrArg Prod.fst h
  · exact congrArg (fun p => p.2.2) h
  · rw [h]
    simp [FundServer.setCache]

/-- C4: a `get_fund_data` call finding a cache entry with
`now - storedAt < CACHE_TTL` returns the stored record with no fetch and the
cache unchanged; a call finding no entry, or an entry with
`now - storedAt >= CACHE_TTL` (which the `get_cached` check treats as a
miss), runs the fetch-and-merge and replaces the entry with the merge result
stored at `now`. -/
theorem getFundData_cache_freshness (c : FundServer.Cache) (code : String)
    (now : ℚ) (estimate : Option FundServer.TiantianRecord)
    (nav : Option FundServer.NavRecord)
    (detail : Option FundServer.DetailRecord) (t : String) :
    (∀ item, c (FundServer.cacheKey code) = some item →
      now - item.timestamp < FundServer.CACHE_TTL →
      FundServer.getFundData c code now estimate nav detail t =
        (item.data, c, false))
    ∧ (∀ item, c (FundServer.cacheKey code) = some item →
        FundServer.CACHE_TTL ≤ now - item.timestamp →
        FundServer.getCached c (FundServer.cacheKey code) now = none)
    ∧ (FundServer.getCached c (FundServer.cacheKey code) now = none →
        FundServer.getFundData c code now estimate nav detail t =
          (FundServer.mergeFund code estimate nav detail t,
           FundServer.setCache c (FundServer.cacheKey code)
             (FundServer.mergeFund code estimate nav detail t) now,
           true)
        ∧ (FundServer.setCache c (FundServer.cacheKey code)
             (FundServer.mergeFund code estimate nav detail t) now)
            (FundServer.cacheKey code) =
            some ⟨FundServer.mergeFund code estimate nav detail t, now⟩) := by
  refine ⟨fun item hit httl => ?_, fun item hit httl => ?_, fun hmiss => ?_⟩
  · simp [FundServer.getFundData, FundServer.getCached, hit, httl]
  · simp [FundServer.getCached, hit]
    linarith
  · exact ⟨by simp [FundServer.getFundData, hmiss],
      by simp [FundServer.setCache]⟩

/-- C4 witness: with a cache holding an entry for code `a` stored at time 5,
a call at time 10 (within the TTL of 30) returns the stored record with no
fetch, a call at time 40 misses, fetches and replaces the entry with
`storedAt = 40`. -/
theorem getFundData_cache_freshness_witness :
    (FundServer.getFundData
        (FundServer.setCache FundServer.emptyCache (FundServer.cacheKey "a")
          (FundServer.emptyFund "a" "t0") 5)
        "a" 10 none none none "t1").1 = FundServer.emptyFund "a" "t0"
    ∧ (FundServer.getFundData
        (FundServer.setCache FundServer.emptyCache (FundServer.cacheKey "a")
          (FundServer.emptyFund "a" "t0") 5)
        "a" 10 none none none "t1").2.2 = false
    ∧ (FundServer.getFundData
        (FundServer.setCache FundServer.emptyCache (FundServer.cacheKey "a")
          (FundServer.emptyFund "a" "t0") 5)
        "a" 40 none none none "t1").2.2 = true
    ∧ (FundServer.getFundData
        (FundServer.setCache FundServer.emptyCache (FundServer.cacheKey "a")
          (FundServer.emptyFund "a" "t0") 5)
        "a" 40 none none none "t1").2.1 (FundServer.cacheKey "a") =
        some ⟨FundServer.mergeFund "a" none none none "t1", 40⟩ := by
  have hfresh := (getFundData_cache_freshness
      (FundServer.setCache FundServer.emptyCache (FundServer.cacheKey "a")
        (FundServer.emptyFund "a" "t0") 5)
      "a" 10 none none none "t1").1
      ⟨FundServer.emptyFund "a" "t0", 5⟩
      (by simp [FundServer.setCache]) (by norm_num [FundServer.CACHE_TTL])
  have hmiss := (getFundData_cache_freshness
      (FundServer.setCache FundServer.emptyCache (FundServer.cacheKey "a")
        (FundServer.emptyFund "a" "t0") 5)
      "a" 40 none none none "t1").2.1
      ⟨FundServer.emptyFund "a" "t0", 5⟩
      (by simp [FundServer.setCache]) (by norm_num [FundServer.CACHE_TTL])
  have hfetch := (getFundData_cache_freshness
      (FundServer.setCache FundServer.emptyCache (FundServer.cacheKey "a")
        (FundServer.emptyFund "a" "t0") 5)
      "a" 40 none none none "t1").2.2 hmiss
  refine ⟨?_, ?_, ?_, ?_⟩
  · exact congrArg Prod.fst hfresh
  · exact congrArg (fun p => p.2.2) hfresh
  · exact congrArg (fun p => p.2.2) hfetch.1
  · rw [hfetch.1]
    exact hfetch.2

/-- C5 counterexample: two merge runs given identical adapter results are
not identical in every field — the record embeds the wall-clock reading
`updateTime` (`datetime.now()` at merge time), so runs at two different
clock readings produce different records. -/
theorem mergeFund_not_function_of_outcomes :
    FundServer.mergeFund "000216" none none none "2024-01-01 10:00:00" ≠
      FundServer.mergeFund "000216" none none none "2024-01-01 10:00:30" := by
  decide

/-- C5 amended: the merge step is deterministic and a pure function of the
adapter outcomes and the clock reading — two runs given identical adapter
results are identical in every field except `updateTime`, which holds each
run's own clock reading, and two runs given identical adapter results and
the same clock reading are identical in every field. -/
theorem mergeFund_deterministic_up_to_updateTime (code : String)
    (estimate : Option FundServer.TiantianRecord)
    (nav : Option FundServer.NavRecord)
    (detail : Option FundServer.DetailRecord) (t t' : String) :
    FundServer.mergeFund code estimate nav detail t =
      { FundServer.mergeFund code estimate nav detail t' with
        updateTime := t } := by
  cases estimate <;> cases nav <;> cases detail <;>
    simp only [FundServer.mergeFund] <;> split_ifs <;> rfl

/-- C6: the merged `estimate`, `estimateTime` and `estimateChange` fields are
taken from the first adapter, in the priority order tiantian-estimate then
eastmoney-detail, whose outcome carries an estimated value — i.e. the first
of the two that returned a record, since every returned record carries a
non-null (possibly zero) estimated value; zero/empty sentinels when neither
returned one. -/
theorem mergeFund_estimate_priority (code : String)
    (estimate : Option FundServer.TiantianRecord)
    (nav : Option FundServer.NavRecord)
    (detail : Option FundServer.DetailRecord) (t : String) :
    (FundServer.mergeFund code estimate nav detail t).estimate =
      (FundServer.estFields estimate detail).1
    ∧ (FundServer.mergeFund code estimate nav detail t).estimateTime =
      (FundServer.estFields estimate detail).2.1
    ∧ (FundServer.mergeFund code estimate nav detail t).estimateChange =
      (FundServer.estFields estimate detail).2.2 := by
  cases estimate <;> cases nav <;> cases detail <;>
    simp [FundServer.mergeFund, FundServer.estFields] <;>
    split_ifs <;> simp

/-- C7: `get_funds` with an empty parsed identifier list, or with more than
50 identifiers, returns the corresponding validation-error response and
issues zero `get_fund_data` dispatches — validation runs before any fetch. -/
theorem getFunds_validation (raw : String)
    (resolve : String → Except String FundServer.FundData) :
    (FundServer.parseCodes raw = [] →
      FundServer.getFunds raw resolve =
        (FundServer.BatchOut.err FundServer.emptyListMsg, 0))
    ∧ (50 < (FundServer.parseCodes raw).length →
      FundServer.getFunds raw resolve =
        (FundServer.BatchOut.err FundServer.capMsg, 0)) := by
  constructor
  · intro h
    simp [FundServer.getFunds, h]
  · intro h
    have hne : FundServer.parseCodes raw ≠ [] := by
      intro hnil
      rw [hnil] at h
      simp at h
    simp [FundServer.getFunds, hne, h]

set_option maxRecDepth 4000 in
/-- C7 witness: an empty `codes` parameter yields the empty-list validation
error with zero dispatches, and 51 identifiers yield the cap validation
error with zero dispatches. -/
theorem getFunds_validation_witness :
    FundServer.getFunds "" (fun _ => Except.error "boom") =
      (FundServer.BatchOut.err FundServer.emptyListMsg, 0)
    ∧ FundServer.getFunds
        (String.intercalate "," (List.replicate 51 "000216"))
        (fun _ => Except.error "boom") =
      (FundServer.BatchOut.err FundServer.capMsg, 0) := by
  constructor
  · exact (getFunds_validation "" (fun _ => Except.error "boom")).1 (by decide)
  · exact (getFunds_validation
      (String.intercalate "," (List.replicate 51 "000216"))
      (fun _ => Except.error "boom")).2 (by decide)

/-- Looking up any list member in the association list pairing each member
with its image finds that member's image. -/
theorem lookup_map_pair {β : Type} (f : String → β) :
    ∀ (l : List String) (c : String), c ∈ l →
      (l.map fun x => (x, f x)).lookup c = some (f c) := by
  intro l c
  induction l with
  | nil => intro h; cases h
  | cons hd tl ih =>
      intro h
      by_cases hc : c = hd
      · subst hc
        simp [List.lookup]
      · rcases List.mem_cons.mp h with h1 | h1
        · exact absurd h1 hc
        · simpa [List.lookup, beq_eq_false_iff_ne.mpr hc] using ih h1

/-- C8: for every identifier list that passes validation, `get_funds`
records an entry for every requested id — the resolved record, or the error
entry when resolving that id raised — and the entry recorded for an id
depends only on that id's own resolution: two resolvers agreeing on an id
yield the same entry for it however they behave (including raising) on the
sibling ids. -/
theorem getFunds_per_id_isolation (raw : String)
    (resolve resolve' : String → Except String FundServer.FundData)
    (hne : FundServer.parseCodes raw ≠ [])
    (hlen : (FundServer.parseCodes raw).length ≤ 50) :
    (∀ c ∈ FundServer.parseCodes raw,
      (FundServer.getFunds raw resolve).1.entriesD.lookup c =
        some (resolve c))
    ∧ (∀ c ∈ FundServer.parseCodes raw, resolve c = resolve' c →
      (FundServer.getFunds raw resolve).1.entriesD.lookup c =
        (FundServer.getFunds raw resolve').1.entriesD.lookup c) := by
  have hgf : ∀ r : String → Except String FundServer.FundData,
      (FundServer.getFunds raw r).1.entriesD =
        (FundServer.parseCodes raw).map fun c => (c, r c) := by
    intro r
    simp [FundServer.getFunds, hne, Nat.not_lt.mpr hlen,
      FundServer.BatchOut.entriesD]
  constructor
  · intro c hc
    rw [hgf resolve]
    exact lookup_map_pair resolve (FundServer.parseCodes raw) c hc
  · intro c hc hagree
    rw [hgf resolve, hgf resolve']
    rw [lookup_map_pair resolve (FundServer.parseCodes raw) c hc,
      lookup_map_pair resolve' (FundServer.parseCodes raw) c hc, hagree]

/-- C8 witness: for the request `codes=000216,320007` with a resolver that
raises on `320007`, the batch result still has an entry for both ids, the
raising id's entry being its error record; and the entry of `000216` is
unchanged when the sibling's resolution is replaced by a different one. -/
theorem getFunds_per_id_isolation_witness :
    (FundServer.getFunds "000216,320007"
        (fun c => if c = "320007" then Except.error "boom"
          else Except.ok (FundServer.emptyFund c "t"))).1.entriesD.lookup
        "320007" = some (Except.error "boom")
    ∧ (FundServer.getFunds "000216,320007"
        (fun c => if c = "320007" then Except.error "boom"
          else Except.ok (FundServer.emptyFund c "t"))).1.entriesD.lookup
        "000216" =
      (FundServer.getFunds "000216,320007"
        (fun c => if c = "320007" then Except.ok (FundServer.emptyFund c "x")
          else Except.ok (FundServer.emptyFund c "t"))).1.entriesD.lookup
        "000216" := by
  constructor
  · have h := (getFunds_per_id_isolation "000216,320007"
        (fun c => if c = "320007" then Except.error "boom"
          else Except.ok (FundServer.emptyFund c "t"))
        (fun c => if c = "320007" then Except.ok (FundServer.emptyFund c "x")
          else Except.ok (FundServer.emptyFund c "t"))
        (by decide) (by decide)).1 "320007" (by decide)
    simpa using h
  · exact (getFunds_per_id_isolation "000216,320007"
        (fun c => if c = "320007" then Except.error "boom"
          else Except.ok (FundServer.emptyFund c "t"))
        (fun c => if c = "320007" then Except.ok (FundServer.emptyFund c "x")
          else Except.ok (FundServer.emptyFund c "t"))
        (by decide) (by decide)).2 "000216" (by decide) (by decide)

/-- C9: `FundAPI.fetch_fund_data` returns exactly one outcome per adapter,
each determined solely by that adapter's own run — a run that raised is
recorded as that adapter's failure outcome (`none`) — and replacing any one
adapter's run by a raising one leaves the other three outcomes unchanged
and never aborts the orchestrator call. -/
theorem fetchFundData_one_outcome_per_adapter
    (rt : Except String (Option FundAPI.TtApiRecord))
    (rn : Except String (Option FundAPI.NavApiRecord))
    (rd : Except String (Option FundAPI.DetApiRecord))
    (ra : Except String (Option FundAPI.AntApiRecord)) :
    FundAPI.fetchFundData rt rn rd ra =
      { tiantian := FundAPI.outcomeOf rt
        eastmoney_nav := FundAPI.outcomeOf rn
        eastmoney_detail := FundAPI.outcomeOf rd
        ant := FundAPI.outcomeOf ra }
    ∧ (∀ m, FundAPI.fetchFundData (Except.error m) rn rd ra =
        { FundAPI.fetchFundData rt rn rd ra with tiantian := none })
    ∧ (∀ m, FundAPI.fetchFundData rt (Except.error m) rd ra =
        { FundAPI.fetchFundData rt rn rd ra with eastmoney_nav := none })
    ∧ (∀ m, FundAPI.fetchFundData rt rn (Except.error m) ra =
        { FundAPI.fetchFundData rt rn rd ra with eastmoney_detail := none })
    ∧ (∀ m, FundAPI.fetchFundData rt rn rd (Except.error m) =
        { FundAPI.fetchFundData rt rn rd ra with ant := none }) := by
  refine ⟨?_, fun m => ?_, fun m => ?_, fun m => ?_, fun m => ?_⟩ <;>
    cases rt <;> cases rn <;> cases rd <;> cases ra <;>
    simp [FundAPI.fetchFundData, FundAPI.outcomeOf]

/-- C10: the batch endpoint splits the `codes` parameter on commas and drops
blank (empty or whitespace-only) entries before validating, so a parameter
whose every comma-piece is blank is rejected with the empty-list validation
error and zero dispatches, and the 50-identifier cap is compared against the
number of non-blank entries only. -/
theorem getFunds_blank_entries (raw : String)
    (resolve : String → Except String FundServer.FundData) :
    ((∀ c ∈ FundServer.pySplitComma raw, FundServer.pyStrip c = "") →
      FundServer.getFunds raw resolve =
        (FundServer.BatchOut.err FundServer.emptyListMsg, 0))
    ∧ ((FundServer.getFunds raw resolve).1 =
          FundServer.BatchOut.err FundServer.capMsg ↔
        ¬ (∀ c ∈ FundServer.pySplitComma raw, FundServer.pyStrip c = "")
        ∧ 50 < ((FundServer.pySplitComma raw).filter
            (fun c => FundServer.pyStrip c ≠ "")).length) := by
  have hnil : FundServer.parseCodes raw = [] ↔
      ∀ c ∈ FundServer.pySplitComma raw, FundServer.pyStrip c = "" := by
    simp [FundServer.parseCodes, List.filter_eq_nil_iff]
  have hlen : (FundServer.parseCodes raw).length =
      ((FundServer.pySplitComma raw).filter
        (fun c => FundServer.pyStrip c ≠ "")).length := by
    rw [FundServer.parseCodes,
      List.filter_map FundServer.pyStrip (FundServer.pySplitComma raw),
      List.length_map]
    rfl
  constructor
  · intro h
    simp [FundServer.getFunds, hnil.mpr h]
  · rw [← hnil, ← hlen]
    by_cases h0 : FundServer.parseCodes raw = []
    · simp [FundServer.getFunds, h0, FundServer.emptyListMsg,
        FundServer.capMsg]
    · by_cases h50 : 50 < (FundServer.parseCodes raw).length
      · simp [FundServer.getFunds, h0, h50]
      · simp [FundServer.getFunds, h0, h50]

set_option maxRecDepth 4000 in
/-- C10 witness: a `codes` parameter consisting only of commas and blanks is
rejected with the empty-list validation error and zero dispatches; and for a
parameter with 52 comma-pieces of which 51 are blank, the cap error is not
raised — blank entries do not count toward the 50-identifier cap. -/
theorem getFunds_blank_entries_witness :
    FundServer.getFunds " ,,  , " (fun _ => Except.error "boom") =
      (FundServer.BatchOut.err FundServer.emptyListMsg, 0)
    ∧ ¬ ((FundServer.getFunds
          (String.intercalate "," (List.replicate 51 " ") ++ ",000216")
          (fun _ => Except.error "boom")).1 =
        FundServer.BatchOut.err FundServer.capMsg) := by
  constructor
  · exact (getFunds_blank_entries " ,,  , "
      (fun _ => Except.error "boom")).1 (by decide)
  · intro h
    have h2 := (getFunds_blank_entries
        (String.intercalate "," (List.replicate 51 " ") ++ ",000216")
        (fun _ => Except.error "boom")).2.mp h
    exact absurd h2.2 (by decide)
